import Mathlib

/-!
Shallow embedding of the module subsystem of `dnf/modules.py`
(module registry, version resolution, enable/disable state machine,
install/upgrade bookkeeping, transaction tracker and identifier parser),
together with theorems settling the behavioural claims about it.

Python dictionaries (`OrderedDict` keyed by name / stream name / integer
version) are embedded as association lists with first-match lookup; a
`KeyError` that the source catches is embedded as an `Option` returning
`none`, and an uncaught `raise Error(...)` as `Except.error`.  Python
truthiness tests (`if not stream:`, `elif version:`, `if nsvap.profile:`)
are embedded explicitly: `None` and the empty string are falsy, the
integer `0` is falsy.
-/

set_option autoImplicit false

namespace DnfModules

/-- Python truthiness of an optional string: `None` and `""` are falsy. -/
def pyFalsyStr (s : Option String) : Bool :=
  match s with
  | none => true
  | some str => str.isEmpty

/-- Python truthiness of an optional integer: `None` and `0` are falsy. -/
def pyFalsyInt (v : Option Int) : Bool :=
  match v with
  | none => true
  | some k => k == 0

/-- Python membership test `profile in list_of_strings` where `profile` may be
`None`: `None` is never an element of a list of strings. -/
def pyMemOpt (profile : Option String) (l : List String) : Bool :=
  match profile with
  | some p => l.contains p
  | none => false

/-- Python `str.strip()` on a character list: drop leading and trailing
whitespace. -/
def pyStrip (l : List Char) : List Char :=
  ((l.dropWhile Char.isWhitespace).reverse.dropWhile Char.isWhitespace).reverse

/-- Value of a nonempty digit sequence. -/
def digitsVal (l : List Char) : Int :=
  l.foldl (fun n c => n * 10 + (Int.ofNat (c.toNat - 48))) 0

/-- Python `int(s)` on a string: optional surrounding whitespace, optional
sign, then decimal digits; anything else raises `ValueError`, embedded as
`none`.  (Implemented on the character list so it reduces by computation.) -/
def pyStrToInt (s : String) : Option Int :=
  let t := pyStrip s.data
  let signDigits : Int × List Char :=
    match t with
    | '-' :: rest => (-1, rest)
    | '+' :: rest => (1, rest)
    | _ => (1, t)
  match signDigits.2 with
  | [] => none
  | _ =>
    if signDigits.2.all Char.isDigit then
      some (signDigits.1 * digitsVal signDigits.2)
    else none

/-- Insertion sort by `≤` on strings, embedding Python `sorted` on a list of
profile names (order is observable only in error payloads). -/
def insertStr (x : String) : List String → List String
  | [] => [x]
  | y :: ys => if x ≤ y then x :: y :: ys else y :: insertStr x ys

/-- Python `sorted(...)` on strings. -/
def pySorted : List String → List String
  | [] => []
  | x :: xs => insertStr x (pySorted xs)

/-- Python `sorted(set(...))` on strings: deduplicate (keeping first
occurrences), then sort. -/
def pySortedSet (l : List String) : List String :=
  pySorted l.eraseDups

/-- Persisted per-module configuration record (`dnf.conf.ModuleConf`).
Modelled from the spec: the class itself lives outside this slice of the
source; the spec gives its fields as
`{name, stream, version, enabled:boolean, locked:boolean, profiles}` with
everything but the name absent/false/empty on a freshly created record. -/
structure ModuleConf where
  name : String
  stream : Option String := none
  version : Option Int := none
  enabled : Bool := false
  locked : Bool := false
  profiles : List String := []
  deriving DecidableEq, Repr

/-- A fresh `ModuleConf(section=name)` with `conf.name = name` set, as
created on first use by `RepoModule.enable` / `RepoModule.disable`. -/
def newModuleConf (name : String) : ModuleConf :=
  { name := name }

/-- The metadata record backing one module release
(`modulemd` document: name, stream, integer version, profile-name to
rpm-name mapping, artifact list). -/
structure ModuleMetadata where
  name : String
  stream : String
  version : Int
  profiles : List (String × List String)
  artifacts : List String
  deriving DecidableEq, Repr

/-- `RepoModuleVersion`: one immutable metadata-backed release of a module,
with the id of the repository it came from. -/
structure RepoModuleVersion where
  module_metadata : ModuleMetadata
  repoId : String
  deriving DecidableEq, Repr

namespace RepoModuleVersion

def version (v : RepoModuleVersion) : Int :=
  v.module_metadata.version

def stream (v : RepoModuleVersion) : String :=
  v.module_metadata.stream

def name (v : RepoModuleVersion) : String :=
  v.module_metadata.name

/-- The `profiles` property: `sorted(self.module_metadata.profiles)` —
the sorted list of profile names (Python `sorted` over a dict iterates
its keys). -/
def profiles (v : RepoModuleVersion) : List String :=
  pySorted (v.module_metadata.profiles.map Prod.fst)

end RepoModuleVersion

/-- Structured errors (`dnf.exceptions.Error` raised with the corresponding
`module_errors` message, or an uncaught Python `KeyError`). -/
inductive ModError
  | noProfile (profile : Option String) (possible : List String)
  | noStream (stream : String) (moduleName : String)
  | keyError
  | attributeError
  deriving DecidableEq, Repr

/-- `RepoModuleStream`: ordered mapping from integer version to
`RepoModuleVersion`, plus the stream name recorded by `add`. -/
structure RepoModuleStream where
  entries : List (Int × RepoModuleVersion)
  stream : Option String := none
  deriving DecidableEq, Repr

namespace RepoModuleStream

/-- `self[version]` lookup, `KeyError` as `none`. -/
def lookup (st : RepoModuleStream) (v : Int) : Option RepoModuleVersion :=
  st.entries.lookup v

/-- `latest(self)` = `max(self.values())`, comparing by
`module_metadata.version` (the class's `__lt__`); Python `max` keeps the
current maximum on ties and raises on an empty dict (embedded as `none`,
a case the loader never produces). -/
def latest (st : RepoModuleStream) : Option RepoModuleVersion :=
  st.entries.foldl
    (fun acc p =>
      match acc with
      | none => some p.2
      | some m => if m.version < p.2.version then some p.2 else some m)
    none

end RepoModuleStream

/-- `RepoModule`: ordered mapping from stream name to `RepoModuleStream`,
plus the persisted configuration and the module name. -/
structure RepoModule where
  entries : List (String × RepoModuleStream)
  conf : Option ModuleConf := none
  name : String
  deriving DecidableEq, Repr

namespace RepoModule

/-- `self[stream]` lookup, `KeyError` as `none`. -/
def lookup (m : RepoModule) (stream : String) : Option RepoModuleStream :=
  m.entries.lookup stream

end RepoModule

/-- `RepoModuleDict`: ordered mapping from module name to `RepoModule`. -/
structure RepoModuleDict where
  entries : List (String × RepoModule)
  deriving DecidableEq, Repr

namespace RepoModuleDict

/-- `self[name]` lookup, `KeyError` as `none`. -/
def lookup (d : RepoModuleDict) (name : String) : Option RepoModule :=
  d.entries.lookup name

/-- `RepoModuleDict.find_module_version(name, stream, version, arch)`.

The whole body sits in a `try: ... except KeyError: pass` returning `None`,
so every failing dict lookup is embedded as `none`.  Stream resolution:
a falsy `stream` argument is replaced by the enabled stream from the
persisted config, then by the hard-coded default (`"f26"`, overridden to
`"2.4"` for `"httpd"`).  If the config is locked with a version set, that
version wins unconditionally; otherwise a truthy `version` argument is
looked up; otherwise the stream's latest version is used.  `arch` is
accepted and ignored, as in the source. -/
def find_module_version (d : RepoModuleDict) (name : String)
    (stream : Option String := none) (version : Option Int := none)
    (arch : Option String := none) : Option RepoModuleVersion :=
  let _ := arch
  match d.lookup name with
  | none => none
  | some repo_module =>
    let stream1 : Option String :=
      if pyFalsyStr stream then
        match repo_module.conf with
        | some c => if c.enabled then c.stream else stream
        | none => stream
      else stream
    let stream2 : Option String :=
      if pyFalsyStr stream1 then
        some (if name = "httpd" then "2.4" else "f26")
      else stream1
    if pyFalsyStr stream2 then none
    else
      match stream2 with
      | none => none
      | some s =>
        match repo_module.lookup s with
        | none => none
        | some repo_module_stream =>
          let lockedVersion : Option Int :=
            match repo_module.conf with
            | some c => if c.locked then c.version else none
            | none => none
          match lockedVersion with
          | some v => repo_module_stream.lookup v
          | none =>
            match version with
            | some w =>
              if w == 0 then repo_module_stream.latest
              else repo_module_stream.lookup w
            | none => repo_module_stream.latest

end RepoModuleDict

/-- Informational log messages emitted through the process-wide logger. -/
inductive LogMsg
  | differentStreamInfo (moduleName : String)
  | streamNotEnabled (stream : String)
  deriving DecidableEq, Repr

/-- Result of `RepoModule.enable` / `RepoModule.disable`: the updated
module, the info messages logged, whether `userconfirm()` was invoked,
and the configuration snapshots written to file (one per
`write_conf_to_file` call). -/
structure EnableResult where
  module : RepoModule
  logs : List LogMsg
  prompted : Bool
  writes : List ModuleConf
  deriving DecidableEq, Repr

namespace RepoModule

/-- `RepoModule.enable(stream, assumeyes, assumeno)`.

Raises `NO_STREAM_ERR` when the stream is not a key of the module.
Creates the config on first use.  When the config already names a
*different* stream and `assumeyes` is unset, it logs
`DIFFERENT_STREAM_INFO` and either (a) asks `userconfirm()` (only when
`assumeno` is unset) and, on yes, recursively calls
`enable(stream, True, assumeno)` — that inner call skips the conflict
branch because `assumeyes` is true, so its effect is inlined here as
setting the stream/enabled flags and writing the file — or (b) logs
`STREAM_NOT_ENABLED_ERR`.  In *every* case control then falls through to
the unconditional tail `conf.stream = stream; conf.enabled = True;
write_conf_to_file()`: the source has no early return. -/
def enable (m : RepoModule) (stream : String) (assumeyes assumeno : Bool)
    (userconfirm : Bool) : Except ModError EnableResult :=
  if (m.lookup stream).isNone then
    .error (.noStream stream m.name)
  else
    let conf := m.conf.getD (newModuleConf m.name)
    let conflict :=
      (match conf.stream with
       | some s => decide (s ≠ stream)
       | none => false) && !assumeyes
    if conflict then
      if !assumeno && userconfirm then
        let confInner := { conf with stream := some stream, enabled := true }
        let confFinal := { confInner with stream := some stream, enabled := true }
        .ok { module := { m with conf := some confFinal },
              logs := [.differentStreamInfo m.name], prompted := true,
              writes := [confInner, confFinal] }
      else
        let confFinal := { conf with stream := some stream, enabled := true }
        .ok { module := { m with conf := some confFinal },
              logs := [.differentStreamInfo m.name, .streamNotEnabled stream],
              prompted := !assumeno,
              writes := [confFinal] }
    else
      let confFinal := { conf with stream := some stream, enabled := true }
      .ok { module := { m with conf := some confFinal },
            logs := [], prompted := false, writes := [confFinal] }

/-- `RepoModule.disable()`: create the config on first use, set
`enabled = False`, write the file.  Nothing else is touched. -/
def disable (m : RepoModule) : EnableResult :=
  let conf := m.conf.getD (newModuleConf m.name)
  let confFinal := { conf with enabled := false }
  { module := { m with conf := some confFinal },
    logs := [], prompted := false, writes := [confFinal] }

end RepoModule

/-- The transaction actions of `dnf.callback` that `progress` inspects:
`TRANS_POST`, `PKG_VERIFY`, and everything else. -/
inductive TransAction
  | transPost
  | pkgVerify
  | other (code : Nat)
  deriving DecidableEq, Repr

/-- `action == TRANS_POST or action == PKG_VERIFY`. -/
def isCheckpoint (a : TransAction) : Bool :=
  match a with
  | .transPost => true
  | .pkgVerify => true
  | .other _ => false

/-- A module as tracked by the transaction callback: its persisted config
— possibly absent, since `RepoModuleVersion.install` / `upgrade` register
modules with the tracker without ever creating a config (install's
`autoenable` defaults to false and `RepoModuleDict.upgrade` explicitly
tolerates `conf is None`) — the `installed_profiles` accumulated by
`install`, and the version of the `installed_repo_module_version` set by
`install` / `upgrade` before registration. -/
structure TrackedModule where
  conf : Option ModuleConf
  installed_profiles : List String
  installedVersion : Int
  deriving DecidableEq, Repr

/-- The commit loop of `progress`, over the tracked modules in order.
Per module: `conf = repo_module.conf; conf.enabled = True` — an
`AttributeError` when the config is `None`, which aborts the loop leaving
the modules already processed written and the rest untouched — then set
`version` to the installed version, extend `installed_profiles` with the
persisted profiles (the source's `profiles.extend(conf.profiles)` mutates
the module's own list in place), store `sorted(set(profiles))` as the new
persisted profile set and write the config.  Returns the module list as
the loop leaves it, the configs written in order, and the raised
exception if any. -/
def commitLoop :
    List TrackedModule → List TrackedModule × List ModuleConf × Option ModError
  | [] => ([], [], none)
  | rm :: rest =>
    match rm.conf with
    | none => (rm :: rest, [], some .attributeError)
    | some c =>
      let conf1 := { c with enabled := true, version := some rm.installedVersion }
      let profiles := rm.installed_profiles ++ c.profiles
      let conf2 := { conf1 with profiles := pySortedSet profiles }
      let rm2 : TrackedModule :=
        { rm with conf := some conf2, installed_profiles := profiles }
      let tail := commitLoop rest
      (rm2 :: tail.1, conf2 :: tail.2.1, tail.2.2)

/-- `ModuleTransactionProgress`: the tracked modules and the one-shot
`saved` flag. -/
structure ModuleTransactionProgress where
  repo_modules : List TrackedModule
  saved : Bool := false
  deriving DecidableEq, Repr

namespace ModuleTransactionProgress

/-- `progress(package, action, ...)`: when `saved` is unset and the action
is `TRANS_POST` or `PKG_VERIFY`, set `saved` (before the loop) and run the
commit loop; otherwise do nothing.  Returns the new tracker state, the
configs written, and the exception the loop raised if any (it propagates
out of `progress`; `saved` stays set). -/
def progress (s : ModuleTransactionProgress) (action : TransAction) :
    ModuleTransactionProgress × List ModuleConf × Option ModError :=
  if !s.saved && isCheckpoint action then
    let r := commitLoop s.repo_modules
    ({ repo_modules := r.1, saved := true }, r.2.1, r.2.2)
  else (s, [], none)

/-- Deliver a sequence of transaction signals, concatenating the config
writes each `progress` call performs. -/
def run (s : ModuleTransactionProgress) :
    List TransAction → ModuleTransactionProgress × List ModuleConf
  | [] => (s, [])
  | a :: rest =>
    let step := s.progress a
    let tail := run step.1 rest
    (tail.1, step.2.1 ++ tail.2)

end ModuleTransactionProgress

/-- A NEVRA possibility as returned by the external `hawkey.Subject`
parser for the non-profile part of the spec: name, version (used as the
module stream), release (used as the module version) and arch fields. -/
structure Nevra where
  name : String
  version : Option String := none
  release : Option String := none
  arch : Option String := none
  deriving DecidableEq, Repr

/-- `NSVAP`: module name, stream, version, arch, profile.  The version is
already normalised to `int`-or-`None` (the constructor's
`version is not None and int(version) or None`, under which `0` collapses
to `None`). -/
structure NSVAP where
  name : String
  stream : Option String := none
  version : Option Int := none
  arch : Option String := none
  profile : Option String := none
  deriving DecidableEq, Repr

namespace ModuleSubject

/-- The profile split at the head of `get_nsvap_possibilities`: when the
spec contains `/`, split at the *last* `/` (`rsplit("/", 1)`); a profile
part that is empty after stripping whitespace becomes `None`.
(Implemented on the character list so it reduces by computation.) -/
def splitProfile (pkg_spec : String) : String × Option String :=
  if pkg_spec.data.contains '/' then
    let rev := pkg_spec.data.reverse
    let profileRev := rev.takeWhile (· != '/')
    let nsva := (rev.drop (profileRev.length + 1)).reverse
    let profile := profileRev.reverse
    (String.mk nsva,
      if pyStrip profile = [] then none else some (String.mk profile))
  else (pkg_spec, none)

/-- The per-possibility body of the loop in `get_nsvap_possibilities`:
when a release field is present it must survive `str(int(release))` —
a `ValueError` skips the possibility (`none`); the `NSVAP` is then built
with stream := nevra version, version := `release and int(release) or
None` (so `0` collapses to `None`), and the profile split off earlier. -/
def nsvapOfNevra (profile : Option String) (i : Nevra) : Option NSVAP :=
  match i.release with
  | none =>
    some { name := i.name, stream := i.version, version := none,
           arch := i.arch, profile := profile }
  | some r =>
    match pyStrToInt r with
    | none => none
    | some k =>
      some { name := i.name, stream := i.version,
             version := if k == 0 then none else some k,
             arch := i.arch, profile := profile }

/-- `ModuleSubject.get_nsvap_possibilities()`: split the profile off,
hand the rest to the external `hawkey.Subject` (embedded as the oracle
`hawkeyPoss`) and keep every possibility whose release parses as an
integer (or is absent). -/
def get_nsvap_possibilities (hawkeyPoss : String → List Nevra)
    (pkg_spec : String) : List NSVAP :=
  let split := splitProfile pkg_spec
  (hawkeyPoss split.1).filterMap (nsvapOfNevra split.2)

/-- `ModuleSubject.find_module_version(repo_module_dict)`: try the parsed
candidates in order and return the first that resolves, together with the
candidate that resolved it; `(None, None)` when none does. -/
def find_module_version (hawkeyPoss : String → List Nevra)
    (pkg_spec : String) (d : RepoModuleDict) :
    Option (RepoModuleVersion × NSVAP) :=
  (get_nsvap_possibilities hawkeyPoss pkg_spec).findSome? fun nsvap =>
    (d.find_module_version nsvap.name nsvap.stream nsvap.version nsvap.arch).map
      (fun mv => (mv, nsvap))

end ModuleSubject

namespace RepoModuleVersion

/-- `RepoModuleVersion.install(profile)`: raises `NO_PROFILE_ERR` naming
the requested profile and the valid profile list whenever the profile is
not a member of the (string) profile list — in particular always when the
profile is `None`.  On success the per-package delegation to the external
engine and the tracker registration happen; the observable modelled here
is the accepted profile. -/
def install (v : RepoModuleVersion) (profile : Option String) :
    Except ModError (Option String) :=
  if pyMemOpt profile v.profiles then .ok profile
  else .error (.noProfile profile v.profiles)

/-- `RepoModuleVersion.upgrade(profiles)`: iterates the given profiles in
order, raising `NO_PROFILE_ERR` at the first one absent from the
metadata's profile list; on success each profile's packages are delegated
to the external engine — the observable modelled here is the list of
profiles upgraded. -/
def upgrade (v : RepoModuleVersion) (profs : List String) :
    Except ModError (List String) :=
  match profs.find? (fun p => !(v.profiles.contains p)) with
  | some p => .error (.noProfile (some p) v.profiles)
  | none => .ok profs

end RepoModuleVersion

/-- Per-spec outcome of `RepoModuleDict.upgrade`, as observable through the
logger and the delegation calls. -/
inductive UpgradeOutcome
  | noModule (spec : String)
  | profileNotInstalled (spec : String)
  | upgraded (moduleName : String) (profs : List String)
  deriving DecidableEq, Repr

namespace RepoModuleDict

/-- `RepoModuleDict.upgrade(pkg_specs)`: per spec, resolve through
`ModuleSubject`; an unresolvable spec logs `NO_MODULE_ERR` and continues.
The installed profiles come from the persisted config of
`self[nsvap.name]` (empty when there is no config).  A truthy requested
profile absent from the installed set logs `PROFILE_NOT_INSTALLED` and
continues; otherwise the requested profile alone — or, with no requested
profile, the whole installed set — is passed to
`RepoModuleVersion.upgrade`, whose `Error` aborts the remaining batch. -/
def upgrade (d : RepoModuleDict) (hawkeyPoss : String → List Nevra) :
    List String → Except ModError (List UpgradeOutcome)
  | [] => .ok []
  | pkg_spec :: rest =>
    match ModuleSubject.find_module_version hawkeyPoss pkg_spec d with
    | none =>
      (upgrade d hawkeyPoss rest).map (fun out => .noModule pkg_spec :: out)
    | some (module_version, nsvap) =>
      match d.lookup nsvap.name with
      | none => .error .keyError
      | some repo_module =>
        let installed_profiles :=
          match repo_module.conf with
          | some c => c.profiles
          | none => []
        if !pyFalsyStr nsvap.profile then
          if !(installed_profiles.contains (nsvap.profile.getD "")) then
            (upgrade d hawkeyPoss rest).map
              (fun out => .profileNotInstalled pkg_spec :: out)
          else
            match module_version.upgrade [nsvap.profile.getD ""] with
            | .error e => .error e
            | .ok profs =>
              (upgrade d hawkeyPoss rest).map
                (fun out => .upgraded nsvap.name profs :: out)
        else
          match module_version.upgrade installed_profiles with
          | .error e => .error e
          | .ok profs =>
            (upgrade d hawkeyPoss rest).map
              (fun out => .upgraded nsvap.name profs :: out)

end RepoModuleDict

/-- Well-formed registry: every entry reachable from the registry carries
the name, stream name and version under which it is keyed.  This is the
invariant the loader's `add` chain (`RepoModuleDict.add` →
`RepoModule.add` → `RepoModuleStream.add`) establishes, since each level
keys the inserted `RepoModuleVersion` by its own field. -/
def WellFormed (d : RepoModuleDict) : Prop :=
  ∀ nm ∈ d.entries, ∀ sst ∈ nm.2.entries, ∀ kv ∈ sst.2.entries,
    kv.2.name = nm.1 ∧ kv.2.stream = sst.1 ∧ kv.2.version = kv.1

/-! ### Concrete example registry used by witnesses and counterexamples -/

/-- Metadata of module `m`, stream `s`, version 0. -/
def exMeta0 : ModuleMetadata :=
  { name := "m", stream := "s", version := 0,
    profiles := [("web", ["pkg"])], artifacts := ["pkg-1.0-1"] }

/-- Metadata of module `m`, stream `s`, version 1. -/
def exMeta1 : ModuleMetadata :=
  { name := "m", stream := "s", version := 1,
    profiles := [("web", ["pkg"])], artifacts := ["pkg-1.1-1"] }

def exV0 : RepoModuleVersion := { module_metadata := exMeta0, repoId := "repo" }

def exV1 : RepoModuleVersion := { module_metadata := exMeta1, repoId := "repo" }

def exStream : RepoModuleStream :=
  { entries := [(0, exV0), (1, exV1)], stream := some "s" }

/-- Persisted config of the example module: enabled on stream `s`, not
locked, profile `web` installed. -/
def exConf : ModuleConf :=
  { name := "m", stream := some "s", enabled := true, profiles := ["web"] }

def exModule : RepoModule :=
  { entries := [("s", exStream)], conf := some exConf, name := "m" }

def exDict : RepoModuleDict := { entries := [("m", exModule)] }

/-- A locked variant of the example config: locked to version 0. -/
def exConfLocked : ModuleConf :=
  { name := "m", stream := some "s", enabled := true, locked := true,
    version := some 0, profiles := ["web"] }

def exModuleLocked : RepoModule :=
  { entries := [("s", exStream)], conf := some exConfLocked, name := "m" }

def exDictLocked : RepoModuleDict := { entries := [("m", exModuleLocked)] }

/-- Module `foo` with streams `1.0` and `2.0`, currently enabled on `1.0`. -/
def exFooConf : ModuleConf :=
  { name := "foo", stream := some "1.0", enabled := true }

def exFooV10 : RepoModuleVersion :=
  { module_metadata :=
      { name := "foo", stream := "1.0", version := 1, profiles := [], artifacts := [] },
    repoId := "repo" }

def exFooV20 : RepoModuleVersion :=
  { module_metadata :=
      { name := "foo", stream := "2.0", version := 1, profiles := [], artifacts := [] },
    repoId := "repo" }

def exFooStream10 : RepoModuleStream :=
  { entries := [(1, exFooV10)], stream := some "1.0" }

def exFooStream20 : RepoModuleStream :=
  { entries := [(1, exFooV20)], stream := some "2.0" }

def exFoo : RepoModule :=
  { entries := [("1.0", exFooStream10), ("2.0", exFooStream20)],
    conf := some exFooConf, name := "foo" }

/-- Example transaction-tracker state: one tracked module with a config. -/
def exTracked : TrackedModule :=
  { conf := some exConf, installed_profiles := ["db"], installedVersion := 1 }

def exTracker : ModuleTransactionProgress :=
  { repo_modules := [exTracked], saved := false }

/-- A tracked module registered without a persisted config, as
`install`/`upgrade` produce when no config was ever created. -/
def exTrackedNoConf : TrackedModule :=
  { conf := none, installed_profiles := ["web"], installedVersion := 1 }

/-- Tracker holding one committable module followed by one without a
config. -/
def exTracker2 : ModuleTransactionProgress :=
  { repo_modules := [exTracked, exTrackedNoConf], saved := false }

/-- Example hawkey oracle: the string `m` parses to one NEVRA possibility
naming module `m`, stream `s`. -/
def exHp : String → List Nevra := fun str =>
  if str = "m" then [{ name := "m", version := some "s" }] else []

/-! ### Helper lemmas -/

theorem mem_of_lookup_eq_some {α β : Type} [BEq α] [LawfulBEq α]
    {l : List (α × β)} {a : α} {b : β}
    (h : l.lookup a = some b) : (a, b) ∈ l := by
  induction l with
  | nil => simp at h
  | cons p t ih =>
    obtain ⟨k, v⟩ := p
    rw [List.lookup_cons] at h
    cases hpa : a == k with
    | true =>
      rw [hpa] at h
      have hk : a = k := eq_of_beq hpa
      have hv : v = b := Option.some_inj.mp h
      subst hk
      subst hv
      exact List.mem_cons_self _ _
    | false =>
      rw [hpa] at h
      exact List.mem_cons_of_mem _ (ih h)

/-- Inversion for the parser's per-possibility transform: a produced
candidate carries the profile handed in, never carries version `some 0`
(Python's `release and int(release) or None` collapses `0` to `None`),
and originates from a possibility whose release field was absent or
parsed as an integer. -/
theorem nsvapOfNevra_spec (profile : Option String) (i : Nevra) (nsvap : NSVAP)
    (h : ModuleSubject.nsvapOfNevra profile i = some nsvap) :
    nsvap.profile = profile ∧ nsvap.version ≠ some 0 ∧
      (i.release = none ∨ ∃ r k, i.release = some r ∧ pyStrToInt r = some k) := by
  unfold ModuleSubject.nsvapOfNevra at h
  revert h
  cases hrel : i.release with
  | none =>
    intro h
    cases h
    exact ⟨rfl, by simp, Or.inl rfl⟩
  | some r =>
    intro h
    replace h : (match pyStrToInt r with
        | none => none
        | some k =>
          some { name := i.name, stream := i.version,
                 version := if (k == 0) = true then none else some k,
                 arch := i.arch, profile := profile }) = some nsvap := h
    cases hk : pyStrToInt r with
    | none => rw [hk] at h; cases h
    | some k =>
      rw [hk] at h
      cases h
      refine ⟨rfl, ?_, Or.inr ⟨r, k, rfl, hk⟩⟩
      by_cases hk0 : k = 0
      · simp [hk0]
      · simp [hk0]

/-- All `nsvapOfNevra` results carry the profile handed to them; hence a
spec without `/` yields only candidates with an absent profile. -/
theorem profile_none_of_no_slash (hp : String → List Nevra) (spec : String)
    (h : ¬ spec.data.contains '/') :
    ∀ nsvap ∈ ModuleSubject.get_nsvap_possibilities hp spec,
      nsvap.profile = none := by
  intro nsvap hmem
  unfold ModuleSubject.get_nsvap_possibilities at hmem
  rw [List.mem_filterMap] at hmem
  obtain ⟨i, _, hi⟩ := hmem
  have hsplit : ModuleSubject.splitProfile spec = (spec, none) := by
    unfold ModuleSubject.splitProfile
    rw [if_neg h]
  rw [hsplit] at hi
  exact (nsvapOfNevra_spec _ _ _ hi).1

/-- A module whose persisted config does not pin a locked version: either
there is no config, or it is not locked, or it has no version recorded.
This is exactly the negation of the condition under which
`find_module_version` ignores the `version` argument. -/
def NotLockPinned (m : RepoModule) : Prop :=
  match m.conf with
  | some c => c.locked = false ∨ c.version = none
  | none => True

/-! ### C2 — lock precedence in `find_module_version` -/

/-- C2: if a module's persisted config is locked with version `v` set,
`find_module_version(name, stream, version := w)` returns the stored
version-`v` object for *every* requested version `w` — the lock overrides
the explicit version argument. -/
theorem find_module_version_locked_overrides
    (d : RepoModuleDict) (name : String) (m : RepoModule) (c : ModuleConf)
    (s : String) (st : RepoModuleStream) (v : Int) (mv : RepoModuleVersion)
    (w : Int) (arch : Option String)
    (hm : d.lookup name = some m) (hc : m.conf = some c)
    (hl : c.locked = true) (hv : c.version = some v)
    (hs : s.isEmpty = false) (hst : m.lookup s = some st)
    (hmv : st.lookup v = some mv)
    (hwf : ∀ kv ∈ st.entries, kv.2.version = kv.1) :
    d.find_module_version name (some s) (some w) arch = some mv ∧
      mv.version = v := by
  constructor
  · simp [RepoModuleDict.find_module_version, hm, pyFalsyStr, hs, hst, hc, hl, hv, hmv]
  · exact hwf (v, mv) (mem_of_lookup_eq_some hmv)

/-- C2 witness: the example registry locked to version 0 resolves a request
for version 1 to the version-0 object. -/
theorem find_module_version_locked_overrides_witness :
    exDictLocked.find_module_version "m" (some "s") (some 1) none = some exV0 ∧
      exV0.version = 0 :=
  find_module_version_locked_overrides exDictLocked "m" exModuleLocked
    exConfLocked "s" exStream 0 exV0 1 none rfl rfl rfl rfl rfl rfl rfl
    (by decide)

/-! ### C4 — exact-match resolution and the version-0 falsiness hole -/

/-- C4 counterexample: the triple `("m", "s", 0)` is resolvable in the
example registry (version 0 is stored), yet `find_module_version` returns
the version-1 object: Python's `elif version:` treats the integer `0` as
falsy and falls through to the latest version. -/
theorem find_module_version_zero_version_counterexample :
    exDict.lookup "m" = some exModule ∧
    exModule.lookup "s" = some exStream ∧
    exStream.lookup 0 = some exV0 ∧
    exV0.version = 0 ∧
    exDict.find_module_version "m" (some "s") (some 0) none = some exV1 ∧
    exV1.version = 1 := by
  refine ⟨rfl, rfl, by decide, rfl, by decide, rfl⟩

/-- C4 (amended): over a well-formed registry, for a query with a nonzero
version argument against a module whose config does not pin a locked
version, every successful `find_module_version` result carries exactly
the queried name, stream and version; unresolvable queries return the
`none` sentinel by construction (every caught `KeyError` is embedded as
`none`). -/
theorem find_module_version_exact_unlocked
    (d : RepoModuleDict) (name s : String) (w : Int) (arch : Option String)
    (m : RepoModule) (mv : RepoModuleVersion)
    (hwf : WellFormed d)
    (hm : d.lookup name = some m) (hnl : NotLockPinned m)
    (hs : s.isEmpty = false) (hw : w ≠ 0)
    (hfind : d.find_module_version name (some s) (some w) arch = some mv) :
    mv.name = name ∧ mv.stream = s ∧ mv.version = w := by
  have hmem1 : (name, m) ∈ d.entries :=
    mem_of_lookup_eq_some (by simpa [RepoModuleDict.lookup] using hm)
  cases hst : m.lookup s with
  | none =>
    simp [RepoModuleDict.find_module_version, hm, pyFalsyStr, hs, hst] at hfind
  | some st =>
    have hmem2 : (s, st) ∈ m.entries :=
      mem_of_lookup_eq_some (by simpa [RepoModule.lookup] using hst)
    have hlook : st.lookup w = some mv := by
      unfold NotLockPinned at hnl
      cases hc : m.conf with
      | none =>
        simpa [RepoModuleDict.find_module_version, hm, pyFalsyStr, hs, hst,
          hc, hw] using hfind
      | some c =>
        rw [hc] at hnl
        rcases hnl with hnl | hnl
        · simpa [RepoModuleDict.find_module_version, hm, pyFalsyStr, hs, hst,
            hc, hnl, hw] using hfind
        · simpa [RepoModuleDict.find_module_version, hm, pyFalsyStr, hs, hst,
            hc, hnl, hw] using hfind
    have hmem3 : (w, mv) ∈ st.entries :=
      mem_of_lookup_eq_some (by simpa [RepoModuleStream.lookup] using hlook)
    exact hwf (name, m) hmem1 (s, st) hmem2 (w, mv) hmem3

/-- C4 witness: resolving `("m", "s", 1)` in the example registry yields an
object carrying exactly those coordinates. -/
theorem find_module_version_exact_unlocked_witness :
    exV1.name = "m" ∧ exV1.stream = "s" ∧ exV1.version = 1 :=
  find_module_version_exact_unlocked exDict "m" "s" 1 none exModule exV1
    (by unfold WellFormed; decide) rfl (Or.inl rfl) rfl (by decide) (by decide)

/-! ### C5 — a missing stream yields the plain not-found sentinel -/

/-- C5 counterexample: in `find_module_version` a stream absent from an
existing module produces exactly the same outcome (`none`) as a wholly
unknown module name: the `KeyError` from the stream lookup is swallowed
by the surrounding `except KeyError` clause, so no structured
"no such stream" condition reaches the caller. -/
theorem find_module_version_missing_stream_counterexample :
    exDict.lookup "m" = some exModule ∧
    exModule.lookup "nosuchstream" = none ∧
    exDict.find_module_version "m" (some "nosuchstream") none none = none ∧
    exDict.find_module_version "nosuchmodule" (some "s") none none = none := by
  refine ⟨rfl, by decide, by decide, by decide⟩

/-- C5 (amended): when the module exists but the requested (truthy) stream
is not one of its streams, `find_module_version` returns the plain `none`
sentinel — indistinguishable from the unknown-module outcome; the
structured no-such-stream error exists only in `RepoModule.enable`. -/
theorem find_module_version_missing_stream_none
    (d : RepoModuleDict) (name s : String) (version : Option Int)
    (arch : Option String) (m : RepoModule)
    (hm : d.lookup name = some m) (hs : s.isEmpty = false)
    (hst : m.lookup s = none) :
    d.find_module_version name (some s) version arch = none := by
  simp [RepoModuleDict.find_module_version, hm, pyFalsyStr, hs, hst]

/-- C5 witness: concrete instance of the amended statement. -/
theorem find_module_version_missing_stream_none_witness :
    exDict.find_module_version "m" (some "other") (some 1) none = none :=
  find_module_version_missing_stream_none exDict "m" "other" (some 1) none
    exModule rfl rfl (by decide)

/-! ### C1, C7, C8 — the enable/disable state machine -/

/-- Every successful `enable` call, whatever branch it took, leaves the
module's streams and name untouched, implies the requested stream was a
key of the module, and ends with the config's stream set to the requested
stream and `enabled = true` (the unconditional tail of the method). -/
theorem enable_ok_conf (m : RepoModule) (s : String) (ay an uc : Bool)
    (r : EnableResult) (h : m.enable s ay an uc = .ok r) :
    r.module.entries = m.entries ∧ r.module.name = m.name ∧
    (m.lookup s).isNone = false ∧
    r.module.conf = some { m.conf.getD (newModuleConf m.name) with
                           stream := some s, enabled := true } := by
  unfold RepoModule.enable at h
  split at h
  · cases h
  next hguard =>
    dsimp only at h
    split at h
    · split at h
      · cases h
        exact ⟨rfl, rfl, Bool.eq_false_iff.mpr hguard, rfl⟩
      · cases h
        exact ⟨rfl, rfl, Bool.eq_false_iff.mpr hguard, rfl⟩
    · cases h
      exact ⟨rfl, rfl, Bool.eq_false_iff.mpr hguard, rfl⟩

/-- Enabling a stream equal to the one already recorded in the config
takes the no-conflict branch: no prompt, no info logs, a single write of
the config with the stream re-recorded and `enabled` set. -/
theorem enable_same_stream (m : RepoModule) (s : String) (ay an uc : Bool)
    (c : ModuleConf) (hc : m.conf = some c) (hstream : c.stream = some s)
    (hguard : (m.lookup s).isNone = false) :
    m.enable s ay an uc =
      .ok { module := { m with conf := some { c with stream := some s, enabled := true } },
            logs := [], prompted := false,
            writes := [{ c with stream := some s, enabled := true }] } := by
  unfold RepoModule.enable
  rw [hguard]
  simp [hc, hstream]

/-- C7: enable is idempotent — after any successful `enable(s)`, a second
consecutive `enable(s)` (with any `assumeyes`/`assumeno`/confirmation
values) triggers no confirmation prompt, logs nothing, and leaves the
persisted configuration identical to what the first call produced. -/
theorem enable_idempotent (m : RepoModule) (s : String)
    (ay an uc ay2 an2 uc2 : Bool) (r1 r2 : EnableResult)
    (h1 : m.enable s ay an uc = .ok r1)
    (h2 : r1.module.enable s ay2 an2 uc2 = .ok r2) :
    r2.module.conf = r1.module.conf ∧ r2.prompted = false ∧ r2.logs = [] := by
  obtain ⟨hent, hname, hguard, hconf⟩ := enable_ok_conf m s ay an uc r1 h1
  have hguard2 : (r1.module.lookup s).isNone = false := by
    unfold RepoModule.lookup at hguard ⊢
    rw [hent]
    exact hguard
  have h2' := enable_same_stream r1.module s ay2 an2 uc2 _ hconf rfl hguard2
  rw [h2'] at h2
  injection h2 with h2
  subst h2
  refine ⟨?_, rfl, rfl⟩
  rw [hconf]

/-- C7 witness: two consecutive `enable("s")` calls on the example module
(already enabled on `s`) leave the config unchanged and never prompt. -/
theorem enable_idempotent_witness :
    ({ module := exModule, logs := [], prompted := false,
       writes := [exConf] } : EnableResult).module.conf =
      ({ module := exModule, logs := [], prompted := false,
         writes := [exConf] } : EnableResult).module.conf ∧
    ({ module := exModule, logs := [], prompted := false,
       writes := [exConf] } : EnableResult).prompted = false ∧
    ({ module := exModule, logs := [], prompted := false,
       writes := [exConf] } : EnableResult).logs = [] :=
  enable_idempotent exModule "s" false false false true true true
    { module := exModule, logs := [], prompted := false, writes := [exConf] }
    { module := exModule, logs := [], prompted := false, writes := [exConf] }
    rfl rfl

/-- C1 (code-bug evidence): with module `foo` enabled on stream `1.0`,
`enable("2.0", assumeyes=False, assumeno=True)` logs
"Enabling different stream" and "Stream not enabled. Skipping 2.0" —
and then *still* records stream `2.0`, sets `enabled`, and writes the
config: the method's unconditional tail runs because the denied branch
has no early return, contradicting the skip message it just logged. -/
theorem enable_assumeno_switches_stream :
    exFoo.conf = some { name := "foo", stream := some "1.0", enabled := true } ∧
    (exFoo.enable "2.0" false true false).map
        (fun r => (r.module.conf, r.logs, r.prompted, r.writes)) =
      .ok (some { name := "foo", stream := some "2.0", enabled := true },
           [LogMsg.differentStreamInfo "foo", LogMsg.streamNotEnabled "2.0"],
           false,
           [{ name := "foo", stream := some "2.0", enabled := true }]) := by
  constructor
  · rfl
  · rfl

/-- C8: `disable()` flips only the `enabled` flag — stream, locked flag,
version and profiles survive — and a subsequent re-`enable` of any stream
still carries the previously recorded version, lock and profile data. -/
theorem disable_frame (m : RepoModule) (c : ModuleConf) (h : m.conf = some c) :
    (m.disable).module.conf = some { c with enabled := false } ∧
    (∀ s ay an uc r2, (m.disable).module.enable s ay an uc = .ok r2 →
      ∃ c2, r2.module.conf = some c2 ∧ c2.enabled = true ∧ c2.stream = some s ∧
        c2.version = c.version ∧ c2.locked = c.locked ∧
        c2.profiles = c.profiles) := by
  have hd : (m.disable).module.conf = some { c with enabled := false } := by
    simp [RepoModule.disable, h]
  refine ⟨hd, ?_⟩
  intro s ay an uc r2 h2
  obtain ⟨_, _, _, hconf⟩ := enable_ok_conf _ s ay an uc r2 h2
  rw [hd] at hconf
  simp only [Option.getD_some] at hconf
  exact ⟨_, hconf, rfl, rfl, rfl, rfl, rfl⟩

/-- C8 witness: disabling the example module preserves every field but
`enabled`. -/
theorem disable_frame_witness :
    (exModule.disable).module.conf = some { exConf with enabled := false } :=
  (disable_frame exModule exConf rfl).1

/-! ### C3 — the transaction tracker commits at most once -/

/-- Once `saved` is set, `progress` is a no-op that writes nothing and
raises nothing. -/
theorem progress_saved (s : ModuleTransactionProgress) (a : TransAction)
    (h : s.saved = true) : s.progress a = (s, [], none) := by
  unfold ModuleTransactionProgress.progress
  rw [h]
  simp

/-- Once `saved` is set, an entire sequence of further signals writes
nothing and leaves the tracker unchanged. -/
theorem run_saved (s : ModuleTransactionProgress) (acts : List TransAction)
    (h : s.saved = true) : s.run acts = (s, []) := by
  induction acts with
  | nil => rfl
  | cons a rest ih =>
    unfold ModuleTransactionProgress.run
    rw [progress_saved s a h]
    simpa using ih

/-- When every tracked module carries a config, the commit loop raises
nothing and writes one config per tracked module. -/
theorem commitLoop_total (l : List TrackedModule)
    (h : ∀ rm ∈ l, rm.conf.isSome = true) :
    (commitLoop l).2.2 = none ∧ (commitLoop l).2.1.length = l.length := by
  induction l with
  | nil => exact ⟨rfl, rfl⟩
  | cons rm rest ih =>
    have hrm := h rm (List.mem_cons_self _ _)
    cases hc : rm.conf with
    | none => rw [hc] at hrm; cases hrm
    | some c =>
      have htail := ih (fun x hx => h x (List.mem_cons_of_mem _ hx))
      unfold commitLoop
      rw [hc]
      simp [htail.1, htail.2]

/-- C3 (amended): over any sequence of transaction signals delivered to a
fresh tracker, persisted configuration is committed at most once — the
writes are exactly the output of one commit loop, performed at the first
post-transaction/verification checkpoint, and empty when the sequence
contains no checkpoint; every signal after the first checkpoint writes
nothing (the `saved` flag is set before the loop, so this holds even when
the loop aborted).  When every tracked module carries a config the loop
raises nothing and that single commit writes every tracked module. -/
theorem tracker_commits_once (s : ModuleTransactionProgress)
    (acts : List TransAction) (h : s.saved = false) :
    ((s.run acts).2 =
      if acts.any isCheckpoint then (commitLoop s.repo_modules).2.1
      else []) ∧
    ((∀ rm ∈ s.repo_modules, rm.conf.isSome = true) →
      (commitLoop s.repo_modules).2.2 = none ∧
      (commitLoop s.repo_modules).2.1.length = s.repo_modules.length) := by
  refine ⟨?_, commitLoop_total s.repo_modules⟩
  induction acts with
  | nil => simp [ModuleTransactionProgress.run]
  | cons a rest ih =>
    cases hcp : isCheckpoint a with
    | false =>
      have hstep : s.progress a = (s, [], none) := by
        unfold ModuleTransactionProgress.progress
        rw [hcp]
        simp
      simp [ModuleTransactionProgress.run, hstep, hcp, ih]
    | true =>
      have hstep : s.progress a =
          ({ repo_modules := (commitLoop s.repo_modules).1, saved := true },
           (commitLoop s.repo_modules).2.1, (commitLoop s.repo_modules).2.2) := by
        unfold ModuleTransactionProgress.progress
        rw [h, hcp]
        simp
      have htail := run_saved
        { repo_modules := (commitLoop s.repo_modules).1, saved := true } rest rfl
      simp [ModuleTransactionProgress.run, hstep, hcp, htail]

/-- C3 witness: two checkpoints after a non-checkpoint signal on a
tracker whose single tracked module has a config produce exactly one
commit batch, raising nothing and writing that one module. -/
theorem tracker_commits_once_witness :
    ((exTracker.run [TransAction.other 0, TransAction.transPost,
        TransAction.pkgVerify, TransAction.transPost]).2 =
      if [TransAction.other 0, TransAction.transPost,
          TransAction.pkgVerify, TransAction.transPost].any isCheckpoint
      then (commitLoop exTracker.repo_modules).2.1
      else []) ∧
    ((commitLoop exTracker.repo_modules).2.2 = none ∧
      (commitLoop exTracker.repo_modules).2.1.length =
        exTracker.repo_modules.length) :=
  ⟨(tracker_commits_once exTracker _ rfl).1,
   (tracker_commits_once exTracker [] rfl).2 (by decide)⟩

/-- C3 counterexample (partial commit): with a committable tracked module
followed by one registered without a config, the first checkpoint sets
`saved`, writes only the first module's config, and raises
`AttributeError` from `conf.enabled = True` on the second — so the commit
does *not* write every tracked module before returning; the next
checkpoint is still a no-op. -/
theorem tracker_partial_commit_counterexample :
    exTracker2.repo_modules.length = 2 ∧
    (exTracker2.progress TransAction.transPost).2.2 =
      some ModError.attributeError ∧
    (exTracker2.progress TransAction.transPost).2.1.length = 1 ∧
    (exTracker2.progress TransAction.transPost).1.saved = true ∧
    (exTracker2.progress TransAction.transPost).1.progress
        TransAction.pkgVerify =
      ((exTracker2.progress TransAction.transPost).1, [], none) := by
  refine ⟨rfl, rfl, rfl, rfl, rfl⟩

/-! ### C6 — upgrade's profile policy and batch continuation -/

/-- C6: for a spec that resolves to a module version: with no requested
profile, exactly the persisted installed-profile set is passed to the
version's upgrade (and the batch continues with the remaining specs);
with a requested profile that is not in the installed set, the spec fails
with the profile-not-installed outcome — nothing is upgraded for it —
and the remaining specs are still processed. -/
theorem upgrade_profile_policy
    (d : RepoModuleDict) (hp : String → List Nevra) (spec : String)
    (rest : List String) (mv : RepoModuleVersion) (nsvap : NSVAP)
    (m : RepoModule) (c : ModuleConf)
    (hres : ModuleSubject.find_module_version hp spec d = some (mv, nsvap))
    (hm : d.lookup nsvap.name = some m) (hc : m.conf = some c) :
    (nsvap.profile = none →
      (∀ p ∈ c.profiles, mv.profiles.contains p = true) →
      d.upgrade hp (spec :: rest) =
        (d.upgrade hp rest).map
          (fun out => UpgradeOutcome.upgraded nsvap.name c.profiles :: out)) ∧
    (∀ p, nsvap.profile = some p → p.isEmpty = false →
      c.profiles.contains p = false →
      d.upgrade hp (spec :: rest) =
        (d.upgrade hp rest).map
          (fun out => UpgradeOutcome.profileNotInstalled spec :: out)) := by
  constructor
  · intro hprof hvalid
    have hupg : mv.upgrade c.profiles = .ok c.profiles := by
      unfold RepoModuleVersion.upgrade
      have hfind : c.profiles.find? (fun p => !(mv.profiles.contains p)) = none := by
        rw [List.find?_eq_none]
        intro p hp
        simp only [hvalid p hp, Bool.not_true]
        simp
      rw [hfind]
    simp [RepoModuleDict.upgrade, hres, hm, hc, hprof, pyFalsyStr, hupg]
  · intro p hprof hpe hnotin
    have hpmem : p ∉ c.profiles := by simpa using hnotin
    simp [RepoModuleDict.upgrade, hres, hm, hc, hprof, pyFalsyStr, hpe, hpmem]

/-- The parser candidate `m/bad` resolves to in the example setting. -/
def exCand : NSVAP :=
  { name := "m", stream := some "s", profile := some "bad" }

/-- C6 witness: upgrading spec `m/bad` — profile `bad` not in the
installed set `{web}` — yields the profile-not-installed outcome and an
otherwise-processed (empty) remainder. -/
theorem upgrade_profile_policy_witness :
    exDict.upgrade exHp ["m/bad"] =
      (exDict.upgrade exHp []).map
        (fun out => UpgradeOutcome.profileNotInstalled "m/bad" :: out) :=
  (upgrade_profile_policy exDict exHp "m/bad" [] exV1 exCand exModule exConf
    rfl rfl rfl).2 "bad" rfl rfl rfl

/-! ### C9 — the identifier parser's filtering policy -/

/-- A possibility whose release field fails integer parsing is dropped. -/
theorem nsvapOfNevra_drop (profile : Option String) (i : Nevra) (r : String)
    (hrel : i.release = some r) (hparse : pyStrToInt r = none) :
    ModuleSubject.nsvapOfNevra profile i = none := by
  unfold ModuleSubject.nsvapOfNevra
  rw [hrel]
  show (match pyStrToInt r with
        | none => none
        | some k =>
          some ({ name := i.name, stream := i.version,
                  version := if (k == 0) = true then none else some k,
                  arch := i.arch, profile := profile } : NSVAP)) = none
  rw [hparse]

/-- C9: every candidate the parser returns originates from a possibility
whose release field was absent or parsed as an integer (so non-integer
versions are dropped, silently — the function is total); a possibility
with an unparsable release is dropped; no candidate carries version
`some 0`; and when the input contains no `/`, every candidate's profile
is absent. -/
theorem parser_filters_malformed_versions
    (hp : String → List Nevra) (spec : String) :
    (∀ nsvap ∈ ModuleSubject.get_nsvap_possibilities hp spec,
      nsvap.version ≠ some 0 ∧
      ∃ i ∈ hp (ModuleSubject.splitProfile spec).1,
        ModuleSubject.nsvapOfNevra (ModuleSubject.splitProfile spec).2 i =
          some nsvap ∧
        (i.release = none ∨ ∃ r k, i.release = some r ∧ pyStrToInt r = some k)) ∧
    (∀ i r, i.release = some r → pyStrToInt r = none →
      ModuleSubject.nsvapOfNevra (ModuleSubject.splitProfile spec).2 i = none) ∧
    (¬ spec.data.contains '/' →
      ∀ nsvap ∈ ModuleSubject.get_nsvap_possibilities hp spec,
        nsvap.profile = none) := by
  refine ⟨?_, ?_, profile_none_of_no_slash hp spec⟩
  · intro nsvap hmem
    unfold ModuleSubject.get_nsvap_possibilities at hmem
    rw [List.mem_filterMap] at hmem
    obtain ⟨i, himem, hi⟩ := hmem
    obtain ⟨_, hv0, horig⟩ := nsvapOfNevra_spec _ _ _ hi
    exact ⟨hv0, i, himem, hi, horig⟩
  · intro i r hrel hparse
    exact nsvapOfNevra_drop _ i r hrel hparse

/-- A NEVRA possibility with an integer release. -/
def exNevraGood : Nevra :=
  { name := "foo", version := some "1.0", release := some "2" }

/-- A NEVRA possibility with a non-integer release. -/
def exNevraBad : Nevra :=
  { name := "foo", version := some "1.0", release := some "x" }

/-- Example hawkey output for the C9/C10 witnesses: one possibility with
integer release, one with a non-integer release. -/
def exHp9 : String → List Nevra := fun _ => [exNevraGood, exNevraBad]

/-- The single surviving candidate of `exHp9` under a slash-free spec. -/
def exNsvap9 : NSVAP := { name := "foo", stream := some "1.0", version := some 2 }

/-- C9 witness: with a slash-free spec, the surviving candidate of the
example possibilities has an absent profile. -/
theorem parser_filters_malformed_versions_witness :
    exNsvap9.profile = none :=
  (parser_filters_malformed_versions exHp9 "foo").2.2 (by decide) exNsvap9
    (by decide)

/-! ### C10 — installing without a `/profile` suffix always fails -/

/-- C10: a spec without a `/profile` suffix yields only candidates with an
absent profile, and version-level install of an absent profile raises the
no-such-profile error for every module version — the error names the
valid profile list and renders the requested profile as the absent value
(`None`); a profile is therefore effectively mandatory for install. -/
theorem install_requires_profile
    (hp : String → List Nevra) (spec : String) (nsvap : NSVAP)
    (mv : RepoModuleVersion)
    (hns : ¬ spec.data.contains '/')
    (hmem : nsvap ∈ ModuleSubject.get_nsvap_possibilities hp spec) :
    mv.install nsvap.profile = .error (.noProfile none mv.profiles) := by
  have hprof := profile_none_of_no_slash hp spec hns nsvap hmem
  rw [hprof]
  unfold RepoModuleVersion.install
  simp [pyMemOpt]

/-- C10 witness: installing the version-1 example module from the
slash-free spec's candidate fails with the no-profile error naming the
valid profiles. -/
theorem install_requires_profile_witness :
    exV1.install exNsvap9.profile =
      .error (.noProfile none exV1.profiles) :=
  install_requires_profile exHp9 "foo" exNsvap9 exV1 (by decide) (by decide)

end DnfModules
